import Mathlib

/-!
Verification of the filtering and derived-metrics pipeline of the student
dashboard (src/student_dashboard.py), shallowly embedded in Lean 4.

Modelling notes:
  - A pandas dataframe is modelled as `Table`: a list of rows together with
    one presence flag per expected column.  In the script the dataframe's
    columns are uniform across rows, so presence is table-wide.
  - Numeric cells (`Marks`, `Attendance`) are modelled as rationals: the
    script's arithmetic on them (comparisons, mean) is exact for the values
    involved.
  - Accessing a missing column (`df["X"]` when `"X" not in df.columns`)
    raises `KeyError` in pandas; the filter pipeline is therefore embedded
    as `Except String Table`, stages returning `.error` exactly where the
    script would raise.
  - `pd.to_numeric(col, errors="coerce")` maps every parseable cell to its
    number and every unparseable cell to NaN.  A raw numeric cell is
    modelled as `RawVal.num q` when the parse succeeds (numbers as well as
    numeric strings) and `RawVal.str s` when it fails (e.g. "abc");
    NaN/absent cells are `Option.none`.
-/

namespace StudentDashboard

/-- A student record after loading and cleaning (section 1 of the script):
all six expected columns, string fields and rational numeric fields. -/
structure StudentRow where
  name : String
  course : String
  city : String
  gender : String
  marks : ℚ
  attendance : ℚ
  deriving DecidableEq, Repr

/-- A dataframe: ordered rows plus a presence flag per expected column.
The flags default to `true` (the well-formed table of the spec's data
model, where every record has all six fields). -/
structure Table where
  hasName : Bool := true
  hasCourse : Bool := true
  hasCity : Bool := true
  hasGender : Bool := true
  hasMarks : Bool := true
  hasAttendance : Bool := true
  rows : List StudentRow
  deriving DecidableEq, Repr

/-- The sidebar filter criteria: `selected_course`, `selected_cities`,
`marks_filter`, `gender_option` (lines 43-65 of the script). -/
structure FilterCriteria where
  course : String
  cities : List String
  minMarks : ℚ
  gender : String
  deriving DecidableEq, Repr

/-- Line 70-71: `if selected_course != "All": filtered_df =
filtered_df[filtered_df["Course"] == selected_course]`.  Accessing the
`Course` column of a table lacking it raises `KeyError`. -/
def courseStage (c : FilterCriteria) (t : Table) : Except String Table :=
  if c.course ≠ "All" then
    if t.hasCourse then
      .ok { t with rows := t.rows.filter (fun r => r.course == c.course) }
    else .error "KeyError: Course"
  else .ok t

/-- Line 73-74: `if selected_cities: filtered_df =
filtered_df[filtered_df["City"].isin(selected_cities)]`.  An empty
selection is falsy in Python, so the stage is skipped. -/
def cityStage (c : FilterCriteria) (t : Table) : Except String Table :=
  if c.cities.isEmpty then .ok t
  else if t.hasCity then
    .ok { t with rows := t.rows.filter (fun r => c.cities.contains r.city) }
  else .error "KeyError: City"

/-- Line 76: `filtered_df = filtered_df[filtered_df["Marks"] >=
marks_filter]` — applied unconditionally, with no column-presence guard. -/
def marksStage (c : FilterCriteria) (t : Table) : Except String Table :=
  if t.hasMarks then
    .ok { t with rows := t.rows.filter (fun r => decide (c.minMarks ≤ r.marks)) }
  else .error "KeyError: Marks"

/-- Line 78-79: `if gender_option != "All": filtered_df =
filtered_df[filtered_df["Gender"] == gender_option]`. -/
def genderStage (c : FilterCriteria) (t : Table) : Except String Table :=
  if c.gender ≠ "All" then
    if t.hasGender then
      .ok { t with rows := t.rows.filter (fun r => r.gender == c.gender) }
    else .error "KeyError: Gender"
  else .ok t

/-- Lines 68-79: the filter pipeline, four narrowing stages applied in
order (course, city, marks, gender). -/
def filtered_df (t : Table) (c : FilterCriteria) : Except String Table :=
  Except.bind (courseStage c t) (fun t1 =>
    Except.bind (cityStage c t1) (fun t2 =>
      Except.bind (marksStage c t2) (fun t3 => genderStage c t3)))

/-- Performance tiers of the metrics block (lines 99-107), plus the
distinct "no students match" state of line 107. -/
inductive Tier where
  | Excellent
  | Good
  | NeedsImprovement
  | NoMatch
  deriving DecidableEq, Repr

/-- The displayed metrics (lines 90-107). -/
structure MetricsSummary where
  averageMarks : ℚ
  averageAttendance : ℚ
  totalStudents : Nat
  tier : Tier
  deriving DecidableEq, Repr

/-- `filtered_df["Marks"].mean()` (line 91): arithmetic mean of Marks. -/
def meanMarks (t : Table) : ℚ :=
  (t.rows.map (fun r => r.marks)).sum / (t.rows.length : ℚ)

/-- `filtered_df["Attendance"].mean()` (line 92). -/
def meanAttendance (t : Table) : ℚ :=
  (t.rows.map (fun r => r.attendance)).sum / (t.rows.length : ℚ)

/-- Lines 90-107: metrics over the filtered view.  Empty view: no averages
are computed, the "No students match the filters!" state is shown.
Non-empty view: mean marks, mean attendance (0 when the Attendance column
is absent, line 92), count, and the tier from the `avg_marks` thresholds
of lines 100-105. -/
def summarize (t : Table) : MetricsSummary :=
  if t.rows.isEmpty then ⟨0, 0, 0, .NoMatch⟩
  else
    let avg := meanMarks t
    { averageMarks := avg
      averageAttendance := if t.hasAttendance then meanAttendance t else 0
      totalStudents := t.rows.length
      tier := if 85 < avg then .Excellent
              else if 70 ≤ avg then .Good
              else .NeedsImprovement }

/-- `needle` starts the list `hay` (character-wise, using `==`). -/
def startsWith : List Char → List Char → Bool
  | _, [] => true
  | [], _ :: _ => false
  | a :: hay, b :: needle => a == b && startsWith hay needle

/-- Substring containment on character lists. -/
def containsSub (needle : List Char) : List Char → Bool
  | [] => startsWith [] needle
  | a :: hay => startsWith (a :: hay) needle || containsSub needle hay

/-- Lowercasing one character (ASCII range, as the names in the data use). -/
def lowerChar (c : Char) : Char :=
  if 'A' ≤ c ∧ c ≤ 'Z' then Char.ofNat (c.toNat + 32) else c

/-- The SPEC's matching predicate, stated from the spec's words (§4.4
"case-insensitive substring containment on the Name field"), to be
compared with the code's behavior: the code's `str.contains` defaults to
`regex=True` and performs regex search instead.  The two coincide exactly
on queries free of regex metacharacters (`search_literal_matches_spec`). -/
def nameContainsSpec (name q : String) : Bool :=
  containsSub (q.data.map lowerChar) (name.data.map lowerChar)

/-- A token of the modelled fragment of Python regex syntax: an ordinary
character (matching itself, case-insensitively under `re.IGNORECASE`) or
the `.` wildcard (matching any character except a newline). -/
inductive ReTok where
  | lit (c : Char)
  | dot
  deriving DecidableEq, Repr

/-- The characters `re` treats as special outside a character class. -/
def reMeta (c : Char) : Bool :=
  c == '.' || c == '^' || c == '$' || c == '*' || c == '+' || c == '?' ||
  c == '\x7b' || c == '\x7d' || c == '[' || c == ']' || c == '\\' ||
  c == '|' || c == '(' || c == ')'

/-- Compiling a pattern string into the modelled regex fragment: ordinary
characters and the `.` wildcard.  A pattern using any other metacharacter
is outside the fragment and maps to `none` (its behavior — other regex
constructs, or `re.error` on an invalid pattern such as `"("` — is not
modelled; no claim depends on it). -/
def tokenizeRe : List Char → Option (List ReTok)
  | [] => some []
  | c :: cs =>
    if reMeta c then
      if c == '.' then (tokenizeRe cs).map (fun ts => ReTok.dot :: ts)
      else none
    else (tokenizeRe cs).map (fun ts => ReTok.lit c :: ts)

/-- Matching the token list at the start of the string: an ordinary
character compares case-insensitively (`re.IGNORECASE`, which is what
pandas sets for `case=False`), `.` matches anything but a newline. -/
def reMatchHere : List ReTok → List Char → Bool
  | [], _ => true
  | _ :: _, [] => false
  | ReTok.lit c :: ts, a :: as => lowerChar a == lowerChar c && reMatchHere ts as
  | ReTok.dot :: ts, a :: as => (a != '\n') && reMatchHere ts as

/-- `re.search`: the pattern may match at any position. -/
def reSearch (ts : List ReTok) : List Char → Bool
  | [] => reMatchHere ts []
  | a :: as => reMatchHere ts (a :: as) || reSearch ts as

/-- Lines 115-116: `if name_search and "Name" in df.columns: result =
df[df["Name"].str.contains(name_search, case=False, na=False)]`.  An
empty query string is falsy, so no search is performed (empty result);
otherwise the base table is filtered by case-insensitive REGEX search on
the Name column — `str.contains` defaults to `regex=True`.  `none` stands
for a query outside the modelled regex fragment. -/
def search (t : Table) (q : String) : Option (List StudentRow) :=
  if (q != "") && t.hasName then
    (tokenizeRe q.data).map (fun ts =>
      t.rows.filter (fun r => reSearch ts r.name.data))
  else some []

/-- Lines 129-130: `if "Marks" in df.columns: top_students = df[df["Marks"]
> 90]` (else only a warning is shown, no table). -/
def top_students (t : Table) : List StudentRow :=
  if t.hasMarks then t.rows.filter (fun r => decide ((90 : ℚ) < r.marks))
  else []

/-- A raw numeric cell as seen by `pd.to_numeric(·, errors="coerce")`:
`num q` for a cell that parses to the number `q`, `str s` for a cell that
fails numeric parsing. -/
inductive RawVal where
  | num (q : ℚ)
  | str (s : String)
  deriving DecidableEq, Repr

/-- A raw source row before cleaning; `none` models a NaN/absent cell. -/
structure RawRow where
  name : Option String
  course : Option String
  city : Option String
  gender : Option String
  marks : Option RawVal
  attendance : Option RawVal
  deriving DecidableEq, Repr

/-- `pd.to_numeric(·, errors="coerce").fillna(0)` on one cell (lines
29-33): parseable values keep their number, unparseable ones coerce to
NaN and then to 0. -/
def toNumericCoerce : RawVal → ℚ
  | .num q => q
  | .str _ => 0

/-- Lines 19-33 applied to one row: `df.fillna({...})` (string columns
default to "Unknown", numeric ones to 0), then numeric coercion of Marks
and Attendance. -/
def cleanRow (r : RawRow) : StudentRow :=
  { name := r.name.getD "Unknown"
    course := r.course.getD "Unknown"
    city := r.city.getD "Unknown"
    gender := r.gender.getD "Unknown"
    marks := toNumericCoerce (r.marks.getD (.num 0))
    attendance := toNumericCoerce (r.attendance.getD (.num 0)) }

/-- Lines 19-33: cleaning the whole loaded dataframe, row by row. -/
def load (rows : List RawRow) : List StudentRow := rows.map cleanRow

/-! ### Helper lemmas about the pipeline stages -/

theorem except_bind_ok {x : Except String Table} {f : Table → Except String Table}
    {b : Table} (h : Except.bind x f = .ok b) : ∃ a, x = .ok a ∧ f a = .ok b := by
  cases x with
  | error e => exact Except.noConfusion h
  | ok a => exact ⟨a, rfl, h⟩

theorem courseStage_ok {c : FilterCriteria} {t t' : Table}
    (h : courseStage c t = .ok t') :
    t'.hasName = t.hasName ∧ t'.hasCourse = t.hasCourse ∧ t'.hasCity = t.hasCity ∧
    t'.hasGender = t.hasGender ∧ t'.hasMarks = t.hasMarks ∧
    t'.hasAttendance = t.hasAttendance ∧
    t'.rows.Sublist t.rows ∧
    (∀ r ∈ t'.rows, c.course ≠ "All" → r.course = c.course) ∧
    (∀ r ∈ t.rows, (c.course ≠ "All" → r.course = c.course) → r ∈ t'.rows) := by
  unfold courseStage at h
  by_cases hall : c.course = "All"
  · rw [if_neg (by simp [hall])] at h
    cases h
    exact ⟨rfl, rfl, rfl, rfl, rfl, rfl, List.Sublist.refl _,
      fun r _ hne => absurd hall hne, fun r hr _ => hr⟩
  · rw [if_pos hall] at h
    by_cases hc : t.hasCourse
    · rw [if_pos hc] at h
      cases h
      refine ⟨rfl, rfl, rfl, rfl, rfl, rfl, List.filter_sublist _, ?_, ?_⟩
      · intro r hr _
        simpa using (List.mem_filter.mp hr).2
      · intro r hr hp
        exact List.mem_filter.mpr ⟨hr, by simp [hp hall]⟩
    · rw [if_neg hc] at h
      exact Except.noConfusion h

theorem cityStage_ok {c : FilterCriteria} {t t' : Table}
    (h : cityStage c t = .ok t') :
    t'.hasName = t.hasName ∧ t'.hasCourse = t.hasCourse ∧ t'.hasCity = t.hasCity ∧
    t'.hasGender = t.hasGender ∧ t'.hasMarks = t.hasMarks ∧
    t'.hasAttendance = t.hasAttendance ∧
    t'.rows.Sublist t.rows ∧
    (∀ r ∈ t'.rows, c.cities ≠ [] → r.city ∈ c.cities) ∧
    (∀ r ∈ t.rows, (c.cities ≠ [] → r.city ∈ c.cities) → r ∈ t'.rows) := by
  unfold cityStage at h
  by_cases hemp : c.cities.isEmpty
  · rw [if_pos hemp] at h
    cases h
    exact ⟨rfl, rfl, rfl, rfl, rfl, rfl, List.Sublist.refl _,
      fun r _ hne => absurd (List.isEmpty_iff.mp hemp) hne, fun r hr _ => hr⟩
  · rw [if_neg hemp] at h
    by_cases hc : t.hasCity
    · rw [if_pos hc] at h
      cases h
      refine ⟨rfl, rfl, rfl, rfl, rfl, rfl, List.filter_sublist _, ?_, ?_⟩
      · intro r hr _
        have := (List.mem_filter.mp hr).2
        simpa [List.contains, List.elem_iff] using this
      · intro r hr hp
        have hne : c.cities ≠ [] := fun hnil => hemp (by simp [hnil])
        exact List.mem_filter.mpr ⟨hr, by simp [List.contains, List.elem_iff, hp hne]⟩
    · rw [if_neg hc] at h
      exact Except.noConfusion h

theorem marksStage_ok {c : FilterCriteria} {t t' : Table}
    (h : marksStage c t = .ok t') :
    t'.hasName = t.hasName ∧ t'.hasCourse = t.hasCourse ∧ t'.hasCity = t.hasCity ∧
    t'.hasGender = t.hasGender ∧ t'.hasMarks = t.hasMarks ∧
    t'.hasAttendance = t.hasAttendance ∧
    t'.rows.Sublist t.rows ∧
    (∀ r ∈ t'.rows, c.minMarks ≤ r.marks) ∧
    (∀ r ∈ t.rows, c.minMarks ≤ r.marks → r ∈ t'.rows) := by
  unfold marksStage at h
  by_cases hm : t.hasMarks
  · rw [if_pos hm] at h
    cases h
    refine ⟨rfl, rfl, rfl, rfl, rfl, rfl, List.filter_sublist _, ?_, ?_⟩
    · intro r hr
      simpa using (List.mem_filter.mp hr).2
    · intro r hr hp
      exact List.mem_filter.mpr ⟨hr, by simpa using hp⟩
  · rw [if_neg hm] at h
    exact Except.noConfusion h

theorem genderStage_ok {c : FilterCriteria} {t t' : Table}
    (h : genderStage c t = .ok t') :
    t'.hasName = t.hasName ∧ t'.hasCourse = t.hasCourse ∧ t'.hasCity = t.hasCity ∧
    t'.hasGender = t.hasGender ∧ t'.hasMarks = t.hasMarks ∧
    t'.hasAttendance = t.hasAttendance ∧
    t'.rows.Sublist t.rows ∧
    (∀ r ∈ t'.rows, c.gender ≠ "All" → r.gender = c.gender) ∧
    (∀ r ∈ t.rows, (c.gender ≠ "All" → r.gender = c.gender) → r ∈ t'.rows) := by
  unfold genderStage at h
  by_cases hall : c.gender = "All"
  · rw [if_neg (by simp [hall])] at h
    cases h
    exact ⟨rfl, rfl, rfl, rfl, rfl, rfl, List.Sublist.refl _,
      fun r _ hne => absurd hall hne, fun r hr _ => hr⟩
  · rw [if_pos hall] at h
    by_cases hc : t.hasGender
    · rw [if_pos hc] at h
      cases h
      refine ⟨rfl, rfl, rfl, rfl, rfl, rfl, List.filter_sublist _, ?_, ?_⟩
      · intro r hr _
        simpa using (List.mem_filter.mp hr).2
      · intro r hr hp
        exact List.mem_filter.mpr ⟨hr, by simp [hp hall]⟩
    · rw [if_neg hc] at h
      exact Except.noConfusion h

theorem courseStage_total (c : FilterCriteria) {t : Table} (hc : t.hasCourse = true) :
    ∃ t', courseStage c t = .ok t' := by
  unfold courseStage
  by_cases hall : c.course ≠ "All"
  · rw [if_pos hall, if_pos hc]
    exact ⟨_, rfl⟩
  · rw [if_neg hall]
    exact ⟨_, rfl⟩

theorem cityStage_total (c : FilterCriteria) {t : Table} (hc : t.hasCity = true) :
    ∃ t', cityStage c t = .ok t' := by
  unfold cityStage
  by_cases hemp : c.cities.isEmpty
  · rw [if_pos hemp]
    exact ⟨_, rfl⟩
  · rw [if_neg hemp, if_pos hc]
    exact ⟨_, rfl⟩

theorem marksStage_total (c : FilterCriteria) {t : Table} (hm : t.hasMarks = true) :
    ∃ t', marksStage c t = .ok t' := by
  unfold marksStage
  rw [if_pos hm]
  exact ⟨_, rfl⟩

theorem genderStage_total (c : FilterCriteria) {t : Table} (hg : t.hasGender = true) :
    ∃ t', genderStage c t = .ok t' := by
  unfold genderStage
  by_cases hall : c.gender ≠ "All"
  · rw [if_pos hall, if_pos hg]
    exact ⟨_, rfl⟩
  · rw [if_neg hall]
    exact ⟨_, rfl⟩

theorem tokenizeRe_literal (cs : List Char) (h : cs.all (fun c => !reMeta c) = true) :
    tokenizeRe cs = some (cs.map ReTok.lit) := by
  induction cs with
  | nil => rfl
  | cons c cs ih =>
    simp only [List.all_cons, Bool.and_eq_true, Bool.not_eq_true'] at h
    simp [tokenizeRe, h.1, ih h.2]

theorem reMatchHere_lits (cs : List Char) : ∀ as : List Char,
    reMatchHere (cs.map ReTok.lit) as = startsWith (as.map lowerChar) (cs.map lowerChar) := by
  induction cs with
  | nil =>
    intro as
    cases as <;> rfl
  | cons c cs ih =>
    intro as
    cases as with
    | nil => rfl
    | cons a as => simp [reMatchHere, startsWith, ih as]

theorem reSearch_lits (cs : List Char) : ∀ as : List Char,
    reSearch (cs.map ReTok.lit) as = containsSub (cs.map lowerChar) (as.map lowerChar) := by
  intro as
  induction as with
  | nil =>
    simp [reSearch, containsSub, reMatchHere_lits]
  | cons a as ih =>
    simp [reSearch, containsSub, reMatchHere_lits, ih]

/-! ### Concrete sample data used by the witnesses -/

/-- Sample rows mirroring the expected CSV contents. -/
def rowAnya : StudentRow := ⟨"Anya", "Math", "Delhi", "Female", 95, 80⟩

def rowDan : StudentRow := ⟨"Dan", "Science", "Pune", "Male", 90, 70⟩

def rowBob : StudentRow := ⟨"Bob", "Math", "Delhi", "Male", 91, 60⟩

/-- A small well-formed base table (all columns present). -/
def sampleTable : Table := { rows := [rowAnya, rowDan, rowBob] }

/-- The criteria produced by untouched widgets: course "All", no city
deselection handled as the empty-selection case, slider at 0, gender
"All". -/
def identityCriteria : FilterCriteria := ⟨"All", [], 0, "All"⟩

/-- A row with a negative Marks value (the data model allows any number). -/
def rowNeg : StudentRow := ⟨"Riya", "Math", "Delhi", "Female", -5, 50⟩

/-- A one-row table containing a negative Marks value. -/
def negTable : Table := { rows := [rowNeg] }

/-- A table whose source file lacked the Marks column. -/
def noMarksTable : Table :=
  { hasMarks := false, rows := [⟨"Asha", "Math", "Delhi", "Female", 0, 0⟩] }

/-! ### The claims -/

/-- C1: for every table and criteria, the filter pipeline's output is a
subsequence of the input table — every output record appears in the input
in the same relative order — and every output record passes all active
predicates: course match when a course is selected, city membership when
the city selection is non-empty, the minimum-marks bound, and gender match
when a gender is selected. -/
theorem filter_output_subsequence (t : Table) (c : FilterCriteria) (t' : Table)
    (h : filtered_df t c = .ok t') :
    t'.rows.Sublist t.rows ∧
    ∀ r ∈ t'.rows,
      (c.course ≠ "All" → r.course = c.course) ∧
      (c.cities ≠ [] → r.city ∈ c.cities) ∧
      c.minMarks ≤ r.marks ∧
      (c.gender ≠ "All" → r.gender = c.gender) := by
  unfold filtered_df at h
  obtain ⟨t1, h1, h⟩ := except_bind_ok h
  obtain ⟨t2, h2, h⟩ := except_bind_ok h
  obtain ⟨t3, h3, h4⟩ := except_bind_ok h
  obtain ⟨_, _, _, _, _, _, s1, sound1, _⟩ := courseStage_ok h1
  obtain ⟨_, _, _, _, _, _, s2, sound2, _⟩ := cityStage_ok h2
  obtain ⟨_, _, _, _, _, _, s3, sound3, _⟩ := marksStage_ok h3
  obtain ⟨_, _, _, _, _, _, s4, sound4, _⟩ := genderStage_ok h4
  refine ⟨((s4.trans s3).trans s2).trans s1, ?_⟩
  intro r hr
  have hr3 : r ∈ t3.rows := s4.subset hr
  have hr2 : r ∈ t2.rows := s3.subset hr3
  have hr1 : r ∈ t1.rows := s2.subset hr2
  exact ⟨fun hne => sound1 r hr1 hne, fun hne => sound2 r hr2 hne,
    sound3 r hr3, fun hne => sound4 r hr hne⟩

/-- C1 witness: the pipeline evaluated on the sample table with an active
course, city and marks filter. -/
theorem filter_output_subsequence_witness :
    ({ rows := [rowAnya, rowBob] } : Table).rows.Sublist sampleTable.rows ∧
    ∀ r ∈ ({ rows := [rowAnya, rowBob] } : Table).rows,
      (("Math" : String) ≠ "All" → r.course = "Math") ∧
      ((["Delhi"] : List String) ≠ [] → r.city ∈ (["Delhi"] : List String)) ∧
      (50 : ℚ) ≤ r.marks ∧
      (("All" : String) ≠ "All" → r.gender = "All") :=
  filter_output_subsequence sampleTable ⟨"Math", ["Delhi"], 50, "All"⟩
    { rows := [rowAnya, rowBob] } rfl

/-- C2 counterexample: with the identity criteria the Marks stage still
runs `Marks >= 0`, so a record with negative Marks is dropped — the
pipeline does not return the table unchanged. -/
theorem identity_criteria_drops_negative_marks :
    filtered_df negTable identityCriteria ≠ .ok negTable := by
  intro h
  have h2 : ({ rows := [] } : Table) = negTable := Except.ok.inj h
  simpa [negTable] using congrArg Table.rows h2

/-- C2 (amended): for every table with the Marks column present all of
whose Marks values are nonnegative, the identity criteria return the
table unchanged. -/
theorem identity_criteria_identity (t : Table) (hm : t.hasMarks = true)
    (hnn : ∀ r ∈ t.rows, 0 ≤ r.marks) :
    filtered_df t identityCriteria = .ok t := by
  have hfilter : t.rows.filter (fun r => decide ((0 : ℚ) ≤ r.marks)) = t.rows := by
    apply List.filter_eq_self.mpr
    intro r hr
    simpa using hnn r hr
  simp [filtered_df, courseStage, cityStage, marksStage, genderStage,
    identityCriteria, hm, Except.bind, hfilter]
  rw [← hm]

/-- C2 witness: the identity criteria leave the (nonnegative-marks)
sample table unchanged. -/
theorem identity_criteria_identity_witness :
    filtered_df sampleTable identityCriteria = .ok sampleTable :=
  identity_criteria_identity sampleTable rfl (by
    intro r hr
    simp [sampleTable, rowAnya, rowDan, rowBob] at hr
    rcases hr with h | h | h <;> subst h <;> norm_num)

/-- C3: the claim says a missing Marks column makes the marks stage a
no-op; in the code line 76 indexes `filtered_df["Marks"]` without the
column-presence guard used everywhere else in the script, so the pipeline
raises `KeyError` instead.  Evaluated at the failing input: a table
lacking the Marks column, with the criteria the widgets themselves
produce in that situation (`marks_filter = 0`, line 59). -/
theorem missing_marks_column_raises :
    filtered_df noMarksTable identityCriteria = .error "KeyError: Marks" := rfl

/-- C10: filtering is complete — on a table with all four filter columns
present, the pipeline succeeds and every input record that passes all
active predicates appears in the output. -/
theorem filter_complete (t : Table) (c : FilterCriteria)
    (hco : t.hasCourse = true) (hci : t.hasCity = true)
    (hm : t.hasMarks = true) (hg : t.hasGender = true) :
    ∃ t', filtered_df t c = .ok t' ∧
      ∀ r ∈ t.rows,
        (c.course ≠ "All" → r.course = c.course) →
        (c.cities ≠ [] → r.city ∈ c.cities) →
        c.minMarks ≤ r.marks →
        (c.gender ≠ "All" → r.gender = c.gender) →
        r ∈ t'.rows := by
  obtain ⟨t1, h1⟩ := courseStage_total c hco
  obtain ⟨_, _, f1ci, f1g, f1m, _, _, _, comp1⟩ := courseStage_ok h1
  obtain ⟨t2, h2⟩ := cityStage_total c (f1ci.trans hci)
  obtain ⟨_, _, _, f2g, f2m, _, _, _, comp2⟩ := cityStage_ok h2
  obtain ⟨t3, h3⟩ := marksStage_total c ((f2m.trans f1m).trans hm)
  obtain ⟨_, _, _, f3g, _, _, _, _, comp3⟩ := marksStage_ok h3
  obtain ⟨t4, h4⟩ := genderStage_total c (((f3g.trans f2g).trans f1g).trans hg)
  obtain ⟨_, _, _, _, _, _, _, _, comp4⟩ := genderStage_ok h4
  refine ⟨t4, ?_, ?_⟩
  · simp only [filtered_df, h1, h2, h3, Except.bind]
    exact h4
  · intro r hr p1 p2 p3 p4
    exact comp4 r (comp3 r (comp2 r (comp1 r hr p1) p2) p3) p4

/-- C10 witness: completeness evaluated on the sample table with an
active course and city filter. -/
theorem filter_complete_witness :
    ∃ t', filtered_df sampleTable ⟨"Math", ["Delhi"], 50, "All"⟩ = .ok t' ∧
      ∀ r ∈ sampleTable.rows,
        (("Math" : String) ≠ "All" → r.course = "Math") →
        ((["Delhi"] : List String) ≠ [] → r.city ∈ (["Delhi"] : List String)) →
        (50 : ℚ) ≤ r.marks →
        (("All" : String) ≠ "All" → r.gender = "All") →
        r ∈ t'.rows :=
  filter_complete sampleTable ⟨"Math", ["Delhi"], 50, "All"⟩ rfl rfl rfl rfl

/-- A filtered view whose Marks are 90, 80 and 70 (mean 80). -/
def goodTable : Table :=
  { rows := [⟨"Pia", "Math", "Delhi", "Female", 90, 80⟩,
             ⟨"Quin", "Math", "Pune", "Male", 80, 75⟩,
             ⟨"Raj", "Science", "Delhi", "Male", 70, 65⟩] }

/-- The empty filtered view. -/
def emptyTable : Table := { rows := [] }

/-- C4: on a non-empty view the reported average is the arithmetic mean
of Marks and the tier is determined exactly by it: mean strictly above 85
is Excellent, mean between 70 and 85 inclusive is Good (so 85 itself is
Good, and 70 itself is Good), and any smaller mean is NeedsImprovement
(lines 100-105). -/
theorem tier_determined_by_mean (t : Table) (h : t.rows ≠ []) :
    (summarize t).averageMarks = meanMarks t ∧
    (85 < meanMarks t → (summarize t).tier = .Excellent) ∧
    (70 ≤ meanMarks t → meanMarks t ≤ 85 → (summarize t).tier = .Good) ∧
    (meanMarks t < 70 → (summarize t).tier = .NeedsImprovement) := by
  have hne : t.rows.isEmpty = false := by
    simp [List.isEmpty_iff]
    exact h
  refine ⟨by simp [summarize, hne], ?_, ?_, ?_⟩
  · intro h85
    simp [summarize, hne, h85]
  · intro h70 h85'
    have h85 : ¬ (85 : ℚ) < meanMarks t := not_lt.mpr h85'
    simp [summarize, hne, h85, h70]
  · intro hlt
    have h85 : ¬ (85 : ℚ) < meanMarks t :=
      not_lt.mpr (le_of_lt (lt_trans hlt (by norm_num)))
    have h70 : ¬ (70 : ℚ) ≤ meanMarks t := not_le.mpr hlt
    simp [summarize, hne, h85, h70]

/-- C4 witness: Marks [90, 80, 70] give mean 80 and tier Good. -/
theorem tier_determined_by_mean_witness :
    (summarize goodTable).tier = Tier.Good := by
  have hm : meanMarks goodTable = 80 := by
    norm_num [meanMarks, goodTable]
  exact (tier_determined_by_mean goodTable (by simp [goodTable])).2.2.1
    (by rw [hm]; norm_num) (by rw [hm]; norm_num)

/-- C5: an empty view yields averages 0, count 0 and the distinct NoMatch
state (no average is computed, no error is raised — line 107); and the
tier is NoMatch exactly when the view is empty. -/
theorem summarize_noMatch_iff_empty (t : Table) :
    (t.rows = [] → summarize t = ⟨0, 0, 0, .NoMatch⟩) ∧
    ((summarize t).tier = .NoMatch ↔ t.rows = []) := by
  constructor
  · intro h
    simp [summarize, h]
  · constructor
    · intro h
      by_contra hne
      have hb : t.rows.isEmpty = false := by
        simp [List.isEmpty_iff]
        exact hne
      simp [summarize, hb] at h
      split at h
      · exact Tier.noConfusion h
      · split at h
        · exact Tier.noConfusion h
        · exact Tier.noConfusion h
    · intro h
      simp [summarize, h]

/-- C5 witness: the empty view evaluated. -/
theorem summarize_noMatch_iff_empty_witness :
    summarize emptyTable = ⟨0, 0, 0, Tier.NoMatch⟩ ∧
    ((summarize emptyTable).tier = Tier.NoMatch ↔ emptyTable.rows = []) :=
  ⟨(summarize_noMatch_iff_empty emptyTable).1 rfl,
    (summarize_noMatch_iff_empty emptyTable).2⟩

/-- C6 counterexample: `str.contains` defaults to `regex=True`, so the
query "." is a regex wildcard: searching "." returns every record of the
sample table although no Name contains "." as a literal substring — the
claim's "exactly the records whose Name contains q as a case-insensitive
substring" fails at this concrete input. -/
theorem search_regex_not_substring :
    search sampleTable "." = some [rowAnya, rowDan, rowBob] ∧
    nameContainsSpec rowAnya.name "." = false := ⟨rfl, rfl⟩

/-- C6 (amended): an empty query performs no search (empty result, no
implicit match-all); a non-empty query FREE OF REGEX METACHARACTERS
returns, from the base table and independently of the filter criteria,
exactly the records whose Name contains the query as a case-insensitive
substring, in original order.  (For general queries the code performs
case-insensitive regex search — pandas `str.contains` defaults
`regex=True` — so e.g. "." matches every name, and an invalid pattern
raises `re.error`.) -/
theorem search_literal_matches_spec (t : Table) (q : String)
    (hn : t.hasName = true) (hlit : q.data.all (fun c => !reMeta c) = true) :
    (q = "" → search t q = some []) ∧
    (q ≠ "" → ∃ rs, search t q = some rs ∧ rs.Sublist t.rows ∧
      ∀ r, r ∈ rs ↔ r ∈ t.rows ∧ nameContainsSpec r.name q = true) := by
  constructor
  · intro h
    subst h
    simp [search]
  · intro h
    have hq : (q != "") = true := bne_iff_ne.mpr h
    refine ⟨t.rows.filter (fun r => reSearch (q.data.map ReTok.lit) r.name.data),
      ?_, List.filter_sublist _, ?_⟩
    · simp [search, hq, hn, tokenizeRe_literal q.data hlit]
    · intro r
      simp [List.mem_filter, reSearch_lits, nameContainsSpec]

/-- C6 witness: searching "an" (metacharacter-free) in the sample table
matches "Anya" and "Dan" case-insensitively. -/
theorem search_literal_matches_spec_witness :
    ∃ rs, search sampleTable "an" = some rs ∧ rs.Sublist sampleTable.rows ∧
      ∀ r, r ∈ rs ↔ r ∈ sampleTable.rows ∧ nameContainsSpec r.name "an" = true :=
  (search_literal_matches_spec sampleTable "an" rfl rfl).2 (by simp)

/-- C8: the top-performers view contains exactly the records with Marks
strictly greater than 90, in original order; Marks exactly 90 is excluded
(line 130). -/
theorem top_students_characterization (t : Table) (hm : t.hasMarks = true) :
    (top_students t).Sublist t.rows ∧
    ∀ r, r ∈ top_students t ↔ r ∈ t.rows ∧ 90 < r.marks := by
  constructor
  · simp [top_students, hm]
  · intro r
    simp [top_students, hm, List.mem_filter]

/-- C8 witness: on the sample table (Marks 95, 90, 91) the view keeps
exactly the 95 and 91 records. -/
theorem top_students_characterization_witness :
    (top_students sampleTable).Sublist sampleTable.rows ∧
    ∀ r, r ∈ top_students sampleTable ↔ r ∈ sampleTable.rows ∧ 90 < r.marks :=
  top_students_characterization sampleTable rfl

/-- C9: the city stage with an empty selection keeps all records (empty
selection means no restriction); with a non-empty selection exactly the
records whose City is in the selection pass (lines 73-74). -/
theorem city_filter_empty_noop (t : Table) (c : FilterCriteria) (hc : t.hasCity = true) :
    (c.cities = [] → cityStage c t = .ok t) ∧
    (c.cities ≠ [] → ∃ t', cityStage c t = .ok t' ∧ t'.rows.Sublist t.rows ∧
      ∀ r, r ∈ t'.rows ↔ r ∈ t.rows ∧ r.city ∈ c.cities) := by
  constructor
  · intro h
    simp [cityStage, h]
  · intro h
    have hne : c.cities.isEmpty = false := by
      simp [List.isEmpty_iff]
      exact h
    refine ⟨{ t with rows := t.rows.filter (fun r => c.cities.contains r.city) }, ?_,
      List.filter_sublist _, ?_⟩
    · simp [cityStage, hne, hc]
    · intro r
      simp [List.mem_filter, List.contains, List.elem_iff]

/-- C9 witness: both branches evaluated on the sample table. -/
theorem city_filter_empty_noop_witness :
    cityStage identityCriteria sampleTable = .ok sampleTable ∧
    ∃ t', cityStage ⟨"All", ["Delhi"], 0, "All"⟩ sampleTable = .ok t' ∧
      t'.rows.Sublist sampleTable.rows ∧
      ∀ r, r ∈ t'.rows ↔ r ∈ sampleTable.rows ∧ r.city ∈ (["Delhi"] : List String) :=
  ⟨(city_filter_empty_noop sampleTable identityCriteria rfl).1 rfl,
    (city_filter_empty_noop sampleTable ⟨"All", ["Delhi"], 0, "All"⟩ rfl).2 (by simp)⟩

/-- C7: loading preserves source row order (the cleaned table is the
cell-wise cleaning of the source rows, position by position), and per
cell: a Marks/Attendance value that is absent or fails numeric parsing
becomes 0 while a parseable one keeps its number — never an error — and
an absent Name/Course/City/Gender becomes "Unknown" while a present one
is kept (lines 19-33). -/
theorem load_cleaning (rows : List RawRow) :
    ((load rows).length = rows.length ∧
      ∀ i (hi : i < (load rows).length) (hs : i < rows.length),
        (load rows).get ⟨i, hi⟩ = cleanRow (rows.get ⟨i, hs⟩)) ∧
    ∀ r : RawRow,
      ((r.marks = none ∨ ∃ s, r.marks = some (.str s)) → (cleanRow r).marks = 0) ∧
      (∀ q, r.marks = some (.num q) → (cleanRow r).marks = q) ∧
      ((r.attendance = none ∨ ∃ s, r.attendance = some (.str s)) →
        (cleanRow r).attendance = 0) ∧
      (∀ q, r.attendance = some (.num q) → (cleanRow r).attendance = q) ∧
      (r.name = none → (cleanRow r).name = "Unknown") ∧
      (∀ s, r.name = some s → (cleanRow r).name = s) ∧
      (r.course = none → (cleanRow r).course = "Unknown") ∧
      (∀ s, r.course = some s → (cleanRow r).course = s) ∧
      (r.city = none → (cleanRow r).city = "Unknown") ∧
      (∀ s, r.city = some s → (cleanRow r).city = s) ∧
      (r.gender = none → (cleanRow r).gender = "Unknown") ∧
      (∀ s, r.gender = some s → (cleanRow r).gender = s) := by
  refine ⟨⟨by simp [load], ?_⟩, ?_⟩
  · intro i hi hs
    simp [load]
  · intro r
    refine ⟨?_, ?_, ?_, ?_, ?_, ?_, ?_, ?_, ?_, ?_, ?_, ?_⟩
    · rintro (h | ⟨s, h⟩) <;> simp [cleanRow, h, toNumericCoerce]
    · intro q h
      simp [cleanRow, h, toNumericCoerce]
    · rintro (h | ⟨s, h⟩) <;> simp [cleanRow, h, toNumericCoerce]
    · intro q h
      simp [cleanRow, h, toNumericCoerce]
    · intro h
      simp [cleanRow, h]
    · intro s h
      simp [cleanRow, h]
    · intro h
      simp [cleanRow, h]
    · intro s h
      simp [cleanRow, h]
    · intro h
      simp [cleanRow, h]
    · intro s h
      simp [cleanRow, h]
    · intro h
      simp [cleanRow, h]
    · intro s h
      simp [cleanRow, h]

/-- A source row with NaN Name, the unparseable Marks string "abc" and a
NaN Attendance. -/
def rawAbc : RawRow := ⟨none, some "Math", none, none, some (.str "abc"), none⟩

/-- C7 witness: loading the "abc"-marks row yields Marks 0, Attendance 0
and Name "Unknown". -/
theorem load_cleaning_witness :
    (cleanRow rawAbc).marks = 0 ∧ (cleanRow rawAbc).attendance = 0 ∧
    (cleanRow rawAbc).name = "Unknown" :=
  ⟨((load_cleaning [rawAbc]).2 rawAbc).1 (Or.inr ⟨"abc", rfl⟩),
    ((load_cleaning [rawAbc]).2 rawAbc).2.2.1 (Or.inl rfl),
    ((load_cleaning [rawAbc]).2 rawAbc).2.2.2.2.1 rfl⟩

end StudentDashboard
